import Mathlib

/-!
Shallow embedding of `homework.py`, a polling bot that queries a homework
review API and relays status notifications.  Python values decoded from JSON
are modelled by `PyValue`, Python exceptions by `PyError`, and each function
of the source file by a Lean definition of the same name.  The HTTP transport
is a parameter (`HttpResult`): each call to `requests.get` is represented by
the outcome the network would have produced.
-/

namespace HomeworkBot

/-- Python values as they occur after JSON decoding: strings, integers,
`None`, lists and string-keyed dictionaries (association lists in iteration
order; keys are unique in every dictionary the program builds). -/
inductive PyValue where
  | str (s : String)
  | int (n : Int)
  | none
  | list (xs : List PyValue)
  | dict (kvs : List (String × PyValue))

/-- Python exceptions raised by the program, carrying the argument string. -/
inductive PyError where
  | keyError (msg : String)
  | typeError (msg : String)
  | exc (msg : String)
  | requestException (msg : String)
  | nameError (msg : String)
  deriving Repr, DecidableEq

/-- `str(e)` for an exception: `KeyError` reprs its argument (adding quotes),
the others return the message unchanged. -/
def PyError.toStr : PyError → String
  | .keyError m => "'" ++ m ++ "'"
  | .typeError m => m
  | .exc m => m
  | .requestException m => m
  | .nameError m => m

/-- Python truthiness of a value (`if v:`). -/
def PyValue.truthy : PyValue → Bool
  | .str s => s != ""
  | .int n => n != 0
  | .none => false
  | .list xs => !xs.isEmpty
  | .dict kvs => !kvs.isEmpty

/-- `type(v)` rendered as Python prints it. -/
def pyTypeName : PyValue → String
  | .str _ => "<class 'str'>"
  | .int _ => "<class 'int'>"
  | .none => "<class 'NoneType'>"
  | .list _ => "<class 'list'>"
  | .dict _ => "<class 'dict'>"

mutual
/-- `repr(v)` (ignoring string-escape subtleties, which the program's data
never exercises). -/
def pyRepr : PyValue → String
  | .str s => "'" ++ s ++ "'"
  | .int n => toString n
  | .none => "None"
  | .list xs => "[" ++ pyReprItems xs ++ "]"
  | .dict kvs => "\x7b" ++ pyReprPairs kvs ++ "\x7d"

def pyReprItems : List PyValue → String
  | [] => ""
  | [x] => pyRepr x
  | x :: rest => pyRepr x ++ ", " ++ pyReprItems rest

def pyReprPairs : List (String × PyValue) → String
  | [] => ""
  | [(k, v)] => "'" ++ k ++ "': " ++ pyRepr v
  | (k, v) :: rest => "'" ++ k ++ "': " ++ pyRepr v ++ ", " ++ pyReprPairs rest
end

/-- `str(v)` as used by f-string interpolation. -/
def pyStr : PyValue → String
  | .str s => s
  | v => pyRepr v

/-- First-match lookup in a dictionary (keys are unique in the program). -/
def dictLookup (kvs : List (String × PyValue)) (k : String) : Option PyValue :=
  match kvs with
  | [] => Option.none
  | (k2, v) :: rest => if k2 = k then some v else dictLookup rest k

/-- Key-membership test for a dictionary. -/
def dictContains (kvs : List (String × PyValue)) (k : String) : Bool :=
  kvs.any (fun p => p.1 == k)

/-- Python `==` between a value and a string literal. -/
def isStrEq (v : PyValue) (k : String) : Bool :=
  match v with
  | .str s => s == k
  | _ => false

/-- The `in` operator, `k in v`: key membership for dicts, element membership
for lists, substring for strings; a `TypeError` on non-containers. -/
def pyIn (k : String) (v : PyValue) : Except PyError Bool :=
  match v with
  | .dict kvs => .ok (dictContains kvs k)
  | .list xs => .ok (xs.any (fun x => isStrEq x k))
  | .str s => .ok (k == "" || (s.splitOn k).length > 1)
  | .int _ => .error (.typeError "argument of type 'int' is not iterable")
  | .none => .error (.typeError "argument of type 'NoneType' is not iterable")

/-- `v.get(k)`: `None` for a missing key; an `AttributeError` (modelled via
the generic constructor) when `v` is not a dict. -/
def pyDictGet (v : PyValue) (k : String) : Except PyError PyValue :=
  match v with
  | .dict kvs => .ok ((dictLookup kvs k).getD .none)
  | _ => .error (.exc "object has no attribute 'get'")

/-- `v[k]` for a string key: `KeyError` on a missing key, `TypeError` when
`v` is not a dict. -/
def pySubscript (v : PyValue) (k : String) : Except PyError PyValue :=
  match v with
  | .dict kvs =>
    match dictLookup kvs k with
    | some x => .ok x
    | Option.none => .error (.keyError k)
  | .list _ => .error (.typeError "list indices must be integers or slices, not str")
  | _ => .error (.typeError "object is not subscriptable")

/-- `v[0]`: the first element of a list. -/
def pyIndexZero (v : PyValue) : Except PyError PyValue :=
  match v with
  | .list (x :: _) => .ok x
  | .list [] => .error (.exc "list index out of range")
  | _ => .error (.typeError "object is not subscriptable")

/-- Whether a value may be used as a dictionary key (lists and dicts are
unhashable in Python). -/
def PyValue.hashable : PyValue → Bool
  | .list _ => false
  | .dict _ => false
  | _ => true

/-- The `HOMEWORK_VERDICTS` dictionary (string keys and values). -/
def HOMEWORK_VERDICTS : List (String × String) :=
  [("approved", "Работа проверена: ревьюеру всё понравилось. Ура!"),
   ("reviewing", "Работа взята на проверку ревьюером."),
   ("rejected", "Работа проверена: у ревьюера есть замечания.")]

/-- Lookup of a verdict text by status code. -/
def verdictLookup (code : String) : Option String :=
  match HOMEWORK_VERDICTS.find? (fun p => p.1 == code) with
  | some p => some p.2
  | Option.none => Option.none

/-- `HOMEWORK_VERDICTS.get(status)` where `status` is an arbitrary value:
`None` for any hashable key other than a matching string, a `TypeError` for
an unhashable key. -/
def verdictsGet (status : PyValue) : Except PyError PyValue :=
  match status with
  | .str s =>
    match verdictLookup s with
    | some v => .ok (.str v)
    | Option.none => .ok .none
  | .int _ => .ok .none
  | .none => .ok .none
  | .list _ => .error (.typeError "unhashable type: 'list'")
  | .dict _ => .error (.typeError "unhashable type: 'dict'")

/-- Log severities used by the program. -/
inductive LogLevel where
  | debug
  | error
  | critical
  deriving Repr, DecidableEq

/-- One structured log line. -/
structure LogEntry where
  level : LogLevel
  msg : String
  deriving Repr, DecidableEq

/-- `parse_status(homework)`, line for line:
missing `homework_name` key, then missing `status` key, each a `KeyError`;
then `HOMEWORK_VERDICTS.get(homework.get('status'))`; a falsy verdict is the
undocumented-status `KeyError`; finally the formatted message. -/
def parse_status (homework : PyValue) : Except PyError String :=
  match pyIn "homework_name" homework with
  | .error e => .error e
  | .ok hasName =>
    if !hasName then
      .error (.keyError "В ответе API домашки нет ключа `homework_name`.")
    else
      match pyIn "status" homework with
      | .error e => .error e
      | .ok hasStatus =>
        if !hasStatus then
          .error (.keyError "В ответе API домашки нет ключа `status`.")
        else
          match pyDictGet homework "status" with
          | .error e => .error e
          | .ok status =>
            match verdictsGet status with
            | .error e => .error e
            | .ok verdict =>
              if !verdict.truthy then
                .error (.keyError
                  "API домашки возвращает недокументированный статус домашней работы.")
              else
                match pySubscript homework "homework_name" with
                | .error e => .error e
                | .ok name =>
                  .ok ("Изменился статус проверки работы \"" ++ pyStr name
                    ++ "\". " ++ pyStr verdict)

/-- `check_response(response)`, line for line: type check on the mapping,
presence of the `homeworks` key, type check on its value, then
`response.get('homeworks')` is returned. -/
def check_response (response : PyValue) : Except PyError PyValue :=
  match response with
  | .dict kvs =>
    if !dictContains kvs "homeworks" then
      .error (.keyError
        ("Ответ сервера не содержит ключ \"homeworks\": " ++ pyStr (.dict kvs)))
    else
      match pySubscript (.dict kvs) "homeworks" with
      | .error e => .error e
      | .ok hws =>
        match hws with
        | .list _ => pyDictGet (.dict kvs) "homeworks"
        | _ =>
          .error (.typeError
            ("В ответе API домашки под ключом `homeworks`"
              ++ " данные приходят не в виде списка."))
  | _ =>
    .error (.typeError
      ("Неправильный тип данных ответа сервера: " ++ pyTypeName response))

/-- The outcome the network produces for one `requests.get` call: either the
GET raises a `requests.RequestException`, or it yields a response with an
HTTP status code, the final request URL, and the JSON-decoded body. -/
inductive HttpResult where
  | transportError (msg : String)
  | response (status : Nat) (url : String) (body : PyValue)

/-- What a call to `get_api_answer` does from its caller's point of view:
return a value or raise an exception. -/
inductive GetResult where
  | returns (v : PyValue)
  | raises (e : PyError)

/-- The log lines written during one call together with its result. -/
structure GetOutcome where
  log : List LogEntry
  result : GetResult

/-- The message of the `UnboundLocalError` (a `NameError`) raised by
`return response_data` when the local was never assigned. -/
def unboundLocalMsg : String :=
  "local variable 'response_data' referenced before assignment"

/-- `get_api_answer(timestamp)`.  The `try` block issues the GET, raises on a
non-200 status, decodes the body, and raises when `form_date` is absent; the
two `except` clauses only log.  After the handlers, `return response_data`
runs: `response_data` is bound only when the 200 branch reached the decode
line, so on a transport failure or a bad status the return statement itself
raises `UnboundLocalError`. -/
def get_api_answer (http : HttpResult) : GetOutcome :=
  match http with
  | .transportError msg =>
    ⟨[⟨.error, "Ошибка отправки запроса. " ++ msg⟩],
      .raises (.nameError unboundLocalMsg)⟩
  | .response status url body =>
    if status ≠ 200 then
      ⟨[⟨.error, "Произошла ошибка: Сбой при обращении к URL " ++ url⟩],
        .raises (.nameError unboundLocalMsg)⟩
    else
      let dbg : LogEntry := ⟨.debug, "Ответ от сервера получен"⟩
      match pyIn "form_date" body with
      | .ok true => ⟨[dbg], .returns body⟩
      | .ok false =>
        ⟨[dbg, ⟨.error, "Произошла ошибка: Отсутствует параметр `form_date`"⟩],
          .returns body⟩
      | .error e =>
        ⟨[dbg, ⟨.error, "Произошла ошибка: " ++ e.toStr⟩], .returns body⟩

/-- An environment variable as `os.getenv` delivers it; Python treats both
`None` and the empty string as falsy. -/
def isFalsyToken (t : Option String) : Bool :=
  match t with
  | Option.none => true
  | some s => s == ""

/-- Outcome of `check_tokens`: the log lines written, and `Option.none` when
the process halted via `exit()`, otherwise the Python value returned. -/
structure TokensOutcome where
  log : List LogEntry
  result : Option PyValue

/-- `check_tokens()`: if any of the three environment values is falsy, log a
critical line naming each falsy one (in list order) and halt via `exit()`;
otherwise log a debug line and fall off the end, returning `None`. -/
def check_tokens (practicumToken telegramToken chatId : Option String) :
    TokensOutcome :=
  let vals : List (Option String × String) :=
    [(practicumToken, "PRACTICUM_TOKEN"),
     (telegramToken, "TELEGRAM_TOKEN"),
     (chatId, "TELEGRAM_CHAT_ID")]
  if vals.any (fun p => isFalsyToken p.1) then
    ⟨(vals.filter (fun p => isFalsyToken p.1)).map
        (fun p => ⟨.critical, "Отсутствует обязательная переменная " ++ p.2⟩),
      Option.none⟩
  else
    ⟨[⟨.debug, "Проверка ключей закончилась успешно"⟩], some PyValue.none⟩

/-- How `main` starts: the process either halts inside `check_tokens` (its
`exit()` raises `SystemExit`, uncaught before the loop) or goes on to create
the bot and enter the polling loop.  The log gathers the lines written before
the first cycle. -/
inductive StartupResult where
  | halt (log : List LogEntry)
  | enterLoop (log : List LogEntry)

/-- The startup portion of `main()`: call `check_tokens`, and — because that
function returns `None` whenever it returns — the `if not check_tokens():`
branch logs its critical line before the loop is entered. -/
def main_startup (p t c : Option String) : StartupResult :=
  match check_tokens p t c with
  | ⟨log, Option.none⟩ => .halt log
  | ⟨log, some v⟩ =>
    if !v.truthy then
      .enterLoop (log ++ [⟨.critical, "Отсутствуют обязательные переменные"⟩])
    else
      .enterLoop log

/-- The loop's mutable state: the cursor `timestamp` and the last-error cache
`last_send['error']`. -/
structure LoopState where
  timestamp : PyValue
  lastError : Option String

/-- What one execution of the `try` block of the loop body does: either it
completes, yielding the new cursor value and the messages passed to
`send_message`, or an exception escapes after the listed messages were sent. -/
inductive TryResult where
  | ok (newTs : PyValue) (sent : List String)
  | failed (e : PyError) (sent : List String)

/-- One execution of the `try` block of `main`'s loop body, line for line:
fetch, validate, then either format-and-send the first record (truthy list)
or call `parse_status` on the falsy value; finally `timestamp =
response['form_date']`.  Its behavior depends only on what the network
returned, not on the loop state. -/
def cycle_try (http : HttpResult) : TryResult :=
  match (get_api_answer http).result with
  | .raises e => .failed e []
  | .returns response =>
    match check_response response with
    | .error e => .failed e []
    | .ok homework =>
      if homework.truthy then
        match pyIndexZero homework with
        | .error e => .failed e []
        | .ok first =>
          match parse_status first with
          | .error e => .failed e []
          | .ok msg =>
            match pySubscript response "form_date" with
            | .error e => .failed e [msg]
            | .ok ts => .ok ts [msg]
      else
        match parse_status homework with
        | .error e => .failed e []
        | .ok _ =>
          match pySubscript response "form_date" with
          | .error e => .failed e []
          | .ok ts => .ok ts []

/-- One full cycle of the loop: the state afterwards, the messages sent from
inside the `try` block, and the messages sent by the `except` handler. -/
structure CycleOutput where
  state : LoopState
  sentOk : List String
  sentErr : List String

/-- One iteration of `while True`: run the `try` block; on an exception,
format `f'Сбой в работе программы: {error}'` and send it only when it
differs from the cached last error, updating the cache on each send. -/
def cycle (s : LoopState) (http : HttpResult) : CycleOutput :=
  match cycle_try http with
  | .ok ts sent => ⟨⟨ts, s.lastError⟩, sent, []⟩
  | .failed e sent =>
    let message := "Сбой в работе программы: " ++ PyError.toStr e
    if s.lastError = some message then
      ⟨⟨s.timestamp, s.lastError⟩, sent, []⟩
    else
      ⟨⟨s.timestamp, some message⟩, sent, [message]⟩

/-- The generic failure message a cycle with this network outcome produces,
or `Option.none` when the `try` block completes. -/
def cycleFails (http : HttpResult) : Option String :=
  match cycle_try http with
  | .ok _ _ => Option.none
  | .failed e _ => some ("Сбой в работе программы: " ++ PyError.toStr e)

/-- Run the loop through a finite prefix of network outcomes, collecting each
cycle's output. -/
def runCycles (s : LoopState) (https : List HttpResult) :
    LoopState × List CycleOutput :=
  match https with
  | [] => (s, [])
  | h :: rest =>
    let out := cycle s h
    ((runCycles out.state rest).1, out :: (runCycles out.state rest).2)

/-- The cycles `main` executes for a given environment and a finite prefix of
network outcomes: none at all when startup halted, otherwise the loop run
from the initial state (clock value as cursor, empty error cache). -/
def main_trace (p t c : Option String) (ts0 : Int) (https : List HttpResult) :
    List CycleOutput :=
  match main_startup p t c with
  | .halt _ => []
  | .enterLoop _ => (runCycles ⟨.int ts0, Option.none⟩ https).2

/-- Whether a value is a Python dict. -/
def PyValue.isDict : PyValue → Bool
  | .dict _ => true
  | _ => false

/-- Whether a value is a Python list. -/
def PyValue.isList : PyValue → Bool
  | .list _ => true
  | _ => false

/-! ## Concrete scenario data -/

/-- The response body of end-to-end scenario A. -/
def scenarioA_body : PyValue :=
  .dict [("homeworks",
          .list [.dict [("homework_name", .str "hw1"), ("status", .str "approved")]]),
         ("form_date", .int 1000)]

/-- The notification text scenario A produces. -/
def scenarioA_msg : String :=
  "Изменился статус проверки работы \"hw1\". Работа проверена: ревьюеру всё понравилось. Ура!"

/-- The response body of end-to-end scenario C (empty homeworks list). -/
def scenarioC_body : PyValue :=
  .dict [("homeworks", .list []), ("form_date", .int 3000)]

/-- The generic failure message produced when `parse_status` is applied to the
empty list: `str` of a `KeyError` reprs its argument, adding the quotes. -/
def missingNameMsg : String :=
  "Сбой в работе программы: 'В ответе API домашки нет ключа `homework_name`.'"

/-! ## Dictionary lemmas -/

theorem dictContains_eq_isSome (kvs : List (String × PyValue)) (k : String) :
    dictContains kvs k = (dictLookup kvs k).isSome := by
  induction kvs with
  | nil => rfl
  | cons p rest ih =>
    obtain ⟨k2, v2⟩ := p
    by_cases hk : k2 = k
    · simp [dictContains, dictLookup, hk]
    · simp [dictContains, dictLookup, hk, ← ih]

theorem dictLookup_eq_none_of_not_contains {kvs : List (String × PyValue)}
    {k : String} (h : dictContains kvs k = false) :
    dictLookup kvs k = Option.none := by
  rw [dictContains_eq_isSome] at h
  exact Option.not_isSome_iff_eq_none.mp (by simp [h])

theorem dictContains_of_lookup {kvs : List (String × PyValue)} {k : String}
    {v : PyValue} (h : dictLookup kvs k = some v) : dictContains kvs k = true := by
  rw [dictContains_eq_isSome, h, Option.isSome_some]

/-! ## Loop lemmas -/

/-- A cycle whose `try` block raises, against a cache not holding its generic
message, sends that message once and caches it; the cursor is unchanged. -/
theorem cycle_fail_send {s : LoopState} {h : HttpResult} {M : String}
    (hf : cycleFails h = some M) (hne : s.lastError ≠ some M) :
    (cycle s h).sentErr = [M] ∧ (cycle s h).state.lastError = some M ∧
    (cycle s h).state.timestamp = s.timestamp := by
  cases hct : cycle_try h with
  | ok ts sent => simp [cycleFails, hct] at hf
  | failed e sent =>
    simp [cycleFails, hct] at hf
    subst hf
    simp [cycle, hct, hne]

/-- A cycle whose `try` block raises, against a cache already holding its
generic message, sends nothing and leaves the cache unchanged. -/
theorem cycle_fail_dedup {s : LoopState} {h : HttpResult} {M : String}
    (hf : cycleFails h = some M) (heq : s.lastError = some M) :
    (cycle s h).sentErr = [] ∧ (cycle s h).state.lastError = some M := by
  cases hct : cycle_try h with
  | ok ts sent => simp [cycleFails, hct] at hf
  | failed e sent =>
    simp [cycleFails, hct] at hf
    subst hf
    simp [cycle, hct, heq]

/-- A cycle whose `try` block completes sends no error message and leaves
the last-error cache untouched. -/
theorem cycle_ok_lastError {s : LoopState} {h : HttpResult}
    (hf : cycleFails h = Option.none) :
    (cycle s h).state.lastError = s.lastError ∧ (cycle s h).sentErr = [] := by
  cases hct : cycle_try h with
  | ok ts sent => simp [cycle, hct]
  | failed e sent => simp [cycleFails, hct] at hf

/-- Running any number of exception-free cycles leaves the last-error cache
untouched. -/
theorem runCycles_lastError_of_ok (https : List HttpResult) :
    ∀ s : LoopState, (∀ h ∈ https, cycleFails h = Option.none) →
      (runCycles s https).1.lastError = s.lastError := by
  induction https with
  | nil => intro s _; rfl
  | cons h rest ih =>
    intro s hok
    have h1 : (cycle s h).state.lastError = s.lastError :=
      (cycle_ok_lastError (hok h (by simp))).1
    have h2 := ih (cycle s h).state (fun x hx => hok x (by simp [hx]))
    simp only [runCycles]
    rw [h2, h1]

/-! ## Claims -/

/-- C2: for one cycle of the main loop starting from any cursor (and any
last-error cache), if the fetched response is
`{"homeworks": [{"homework_name": "hw1", "status": "approved"}], "form_date": 1000}`
then exactly one notification is sent — from the `try` block, with the exact
text of the `approved` verdict — and the cursor becomes `1000`. -/
theorem C2_scenarioA_cycle (ts : PyValue) (le : Option String) (url : String) :
    cycle ⟨ts, le⟩ (.response 200 url scenarioA_body) =
      ⟨⟨.int 1000, le⟩, [scenarioA_msg], []⟩ := rfl

/-- C7: when the validated homeworks list is empty, the loop still calls
`parse_status` on the empty (falsy) value, which raises the missing
`homework_name` `KeyError`; the catch-all converts it to the generic failure
message and sends it exactly once (the cache not already holding it), so the
empty-list case is not a silent no-op.  The cursor is left unchanged. -/
theorem C7_empty_list_cycle (ts : PyValue) (le : Option String) (url : String)
    (h : le ≠ some missingNameMsg) :
    cycle ⟨ts, le⟩ (.response 200 url scenarioC_body) =
      ⟨⟨ts, some missingNameMsg⟩, [], [missingNameMsg]⟩ := by
  have hct : cycle_try (.response 200 url scenarioC_body) =
      .failed (.keyError "В ответе API домашки нет ключа `homework_name`.") [] := rfl
  have hmsg : "Сбой в работе программы: "
      ++ PyError.toStr (.keyError "В ответе API домашки нет ключа `homework_name`.")
      = missingNameMsg := rfl
  simp only [cycle, hct, hmsg]
  simp [h]

/-- Witness for C7 at the concrete scenario C state. -/
theorem C7_empty_list_cycle_witness :
    cycle ⟨.int 7, Option.none⟩ (.response 200 "url" scenarioC_body) =
      ⟨⟨.int 7, some missingNameMsg⟩, [], [missingNameMsg]⟩ :=
  C7_empty_list_cycle (.int 7) Option.none "url" (by simp)

/-- C8: when the GET succeeds with status 200 but the decoded body (a
mapping) lacks the `form_date` key, `get_api_answer` logs the error and still
returns the decoded body — the missing cursor key surfaces as no exception. -/
theorem C8_missing_form_date (url : String) (kvs : List (String × PyValue))
    (h : dictContains kvs "form_date" = false) :
    get_api_answer (.response 200 url (.dict kvs)) =
      ⟨[⟨.debug, "Ответ от сервера получен"⟩,
        ⟨.error, "Произошла ошибка: Отсутствует параметр `form_date`"⟩],
        .returns (.dict kvs)⟩ := by
  simp [get_api_answer, pyIn, h]

/-- Witness for C8 on a body holding only the homeworks list. -/
theorem C8_missing_form_date_witness :
    get_api_answer (.response 200 "url" (.dict [("homeworks", .list [])])) =
      ⟨[⟨.debug, "Ответ от сервера получен"⟩,
        ⟨.error, "Произошла ошибка: Отсутствует параметр `form_date`"⟩],
        .returns (.dict [("homeworks", .list [])])⟩ :=
  C8_missing_form_date "url" _ (by decide)

/-- C4: `check_response` fails with a type-mismatch error on every non-mapping
input, with a missing-key error on every mapping lacking the `homeworks` key,
and with a type-mismatch error on every mapping whose `homeworks` value is
not a list; on every mapping whose `homeworks` value is a list — the empty
list included — it returns that list. -/
theorem C4_check_response :
    (∀ v : PyValue, v.isDict = false →
      check_response v = .error (.typeError
        ("Неправильный тип данных ответа сервера: " ++ pyTypeName v))) ∧
    (∀ kvs, dictContains kvs "homeworks" = false →
      check_response (.dict kvs) = .error (.keyError
        ("Ответ сервера не содержит ключ \"homeworks\": " ++ pyStr (.dict kvs)))) ∧
    (∀ kvs v, dictLookup kvs "homeworks" = some v → v.isList = false →
      check_response (.dict kvs) = .error (.typeError
        ("В ответе API домашки под ключом `homeworks`"
          ++ " данные приходят не в виде списка."))) ∧
    (∀ kvs xs, dictLookup kvs "homeworks" = some (.list xs) →
      check_response (.dict kvs) = .ok (.list xs)) := by
  refine ⟨?_, ?_, ?_, ?_⟩
  · intro v hv
    cases v <;> simp_all [check_response, PyValue.isDict]
  · intro kvs h
    simp [check_response, h]
  · intro kvs v hl hv
    have hc := dictContains_of_lookup hl
    cases v <;>
      simp_all [check_response, pySubscript, pyDictGet, PyValue.isList]
  · intro kvs xs hl
    have hc := dictContains_of_lookup hl
    simp [check_response, hc, pySubscript, pyDictGet, hl]

/-- Witness for C4: one concrete input per rejection branch and the empty
list accepted. -/
theorem C4_check_response_witness :
    check_response (.int 5) = .error (.typeError
      "Неправильный тип данных ответа сервера: <class 'int'>") ∧
    check_response (.dict [("x", .int 1)]) = .error (.keyError
      "Ответ сервера не содержит ключ \"homeworks\": \x7b'x': 1\x7d") ∧
    check_response (.dict [("homeworks", .int 2)]) = .error (.typeError
      "В ответе API домашки под ключом `homeworks` данные приходят не в виде списка.") ∧
    check_response (.dict [("homeworks", .list [])]) = .ok (.list []) :=
  ⟨C4_check_response.1 (.int 5) rfl,
   C4_check_response.2.1 [("x", .int 1)] (by decide),
   C4_check_response.2.2.1 [("homeworks", .int 2)] (.int 2) rfl rfl,
   C4_check_response.2.2.2 [("homeworks", .list [])] [] rfl⟩

/-- C3 counterexample: the claim promises the unrecognized-status error for
*every* record whose status is not a recognized code, but a record whose
status value is a list (not a code) makes `HOMEWORK_VERDICTS.get` raise
`TypeError: unhashable type: 'list'` instead of the unrecognized-status
`KeyError`. -/
theorem C3_counterexample :
    parse_status (.dict [("homework_name", .str "hw"), ("status", .list [])]) =
      .error (.typeError "unhashable type: 'list'") ∧
    (Except.error (PyError.typeError "unhashable type: 'list'") :
        Except PyError String) ≠
      .error (.keyError
        "API домашки возвращает недокументированный статус домашней работы.") := by
  refine ⟨rfl, ?_⟩
  simp

/-- C3 (amended): `parse_status` fails with the distinct missing-key error
for every record lacking `homework_name` and for every record with
`homework_name` but no `status`; for every record whose status value is
hashable and is not one of the three recognized codes it fails with the
unrecognized-status error (an unhashable status instead raises a
`TypeError`, see the counterexample); and for every record with a recognized
status it returns the message containing the homework name and the exact
mapped verdict text. -/
theorem C3_parse_status :
    (∀ kvs, dictContains kvs "homework_name" = false →
      parse_status (.dict kvs) = .error (.keyError
        "В ответе API домашки нет ключа `homework_name`.")) ∧
    (∀ kvs, dictContains kvs "homework_name" = true →
      dictContains kvs "status" = false →
      parse_status (.dict kvs) = .error (.keyError
        "В ответе API домашки нет ключа `status`.")) ∧
    (∀ kvs v, dictContains kvs "homework_name" = true →
      dictLookup kvs "status" = some v → v.hashable = true →
      (∀ c vd, (c, vd) ∈ HOMEWORK_VERDICTS → v ≠ .str c) →
      parse_status (.dict kvs) = .error (.keyError
        "API домашки возвращает недокументированный статус домашней работы.")) ∧
    (∀ kvs nm c vd, dictLookup kvs "homework_name" = some nm →
      dictLookup kvs "status" = some (.str c) → (c, vd) ∈ HOMEWORK_VERDICTS →
      parse_status (.dict kvs) =
        .ok ("Изменился статус проверки работы \"" ++ pyStr nm ++ "\". " ++ vd)) := by
  refine ⟨?_, ?_, ?_, ?_⟩
  · intro kvs h
    simp [parse_status, pyIn, h]
  · intro kvs h1 h2
    simp [parse_status, pyIn, h1, h2]
  · intro kvs v h1 hl hh hnc
    have h2 := dictContains_of_lookup hl
    cases v with
    | str s =>
      have ha : s ≠ "approved" := fun he =>
        hnc "approved" "Работа проверена: ревьюеру всё понравилось. Ура!"
          (by simp [HOMEWORK_VERDICTS]) (by rw [he])
      have hb : s ≠ "reviewing" := fun he =>
        hnc "reviewing" "Работа взята на проверку ревьюером."
          (by simp [HOMEWORK_VERDICTS]) (by rw [he])
      have hcr : s ≠ "rejected" := fun he =>
        hnc "rejected" "Работа проверена: у ревьюера есть замечания."
          (by simp [HOMEWORK_VERDICTS]) (by rw [he])
      have ha2 : ("approved" == s) = false := beq_eq_false_iff_ne.mpr (Ne.symm ha)
      have hb2 : ("reviewing" == s) = false := beq_eq_false_iff_ne.mpr (Ne.symm hb)
      have hc2 : ("rejected" == s) = false := beq_eq_false_iff_ne.mpr (Ne.symm hcr)
      have hv : verdictLookup s = Option.none := by
        simp [verdictLookup, HOMEWORK_VERDICTS, List.find?, ha2, hb2, hc2]
      simp [parse_status, pyIn, h1, h2, pyDictGet, hl, verdictsGet, hv,
        PyValue.truthy]
    | int n =>
      simp [parse_status, pyIn, h1, h2, pyDictGet, hl, verdictsGet,
        PyValue.truthy]
    | none =>
      simp [parse_status, pyIn, h1, h2, pyDictGet, hl, verdictsGet,
        PyValue.truthy]
    | list xs => simp [PyValue.hashable] at hh
    | dict kvs2 => simp [PyValue.hashable] at hh
  · intro kvs nm c vd hn hs hmem
    have h1 := dictContains_of_lookup hn
    have h2 := dictContains_of_lookup hs
    simp [HOMEWORK_VERDICTS] at hmem
    rcases hmem with ⟨hc, hv⟩ | ⟨hc, hv⟩ | ⟨hc, hv⟩ <;> subst hc <;> subst hv <;>
      simp [parse_status, pyIn, h1, h2, pyDictGet, hn, hs, verdictsGet,
        verdictLookup, HOMEWORK_VERDICTS, List.find?, PyValue.truthy,
        pySubscript, pyStr]

/-- Witness for C3: one concrete record per branch. -/
theorem C3_parse_status_witness :
    parse_status (.dict [("status", .str "approved")]) =
      .error (.keyError "В ответе API домашки нет ключа `homework_name`.") ∧
    parse_status (.dict [("homework_name", .str "hw")]) =
      .error (.keyError "В ответе API домашки нет ключа `status`.") ∧
    parse_status (.dict [("homework_name", .str "hw2"), ("status", .str "weird")]) =
      .error (.keyError
        "API домашки возвращает недокументированный статус домашней работы.") ∧
    parse_status (.dict [("homework_name", .str "hw1"), ("status", .str "approved")]) =
      .ok ("Изменился статус проверки работы \"hw1\". "
        ++ "Работа проверена: ревьюеру всё понравилось. Ура!") :=
  ⟨C3_parse_status.1 [("status", .str "approved")] (by decide),
   C3_parse_status.2.1 [("homework_name", .str "hw")] (by decide) (by decide),
   C3_parse_status.2.2.1 [("homework_name", .str "hw2"), ("status", .str "weird")]
     (.str "weird") (by decide) rfl rfl
     (by intro c vd hmem he; simp [HOMEWORK_VERDICTS] at hmem;
         rcases hmem with ⟨hc, _⟩ | ⟨hc, _⟩ | ⟨hc, _⟩ <;> subst hc <;> simp at he),
   C3_parse_status.2.2.2 [("homework_name", .str "hw1"), ("status", .str "approved")]
     (.str "hw1") "approved" "Работа проверена: ревьюеру всё понравилось. Ура!"
     rfl rfl (by simp [HOMEWORK_VERDICTS])⟩

/-- C1 counterexample: on a concrete transport failure `get_api_answer` does
not return data to its caller — the final `return response_data` raises an
`UnboundLocalError` (a `NameError`) because the local was never assigned, so
an exception does surface to the main loop's catch-all, refuting the claim
that the function "still returns ... instead of surfacing an error". -/
theorem C1_counterexample :
    (get_api_answer (.transportError "Connection refused")).result =
      .raises (.nameError unboundLocalMsg) := rfl

/-- C1 (amended): on a transport failure or a non-200 status the internal
handlers log the error and do not re-raise it, but the function does not
return data: `response_data` was never assigned, so the `return` statement
raises an `UnboundLocalError` that surfaces to the caller (a different
exception than the one logged). -/
theorem C1_get_api_answer_failure (msg url : String) (status : Nat)
    (body : PyValue) (h : status ≠ 200) :
    get_api_answer (.transportError msg) =
      ⟨[⟨.error, "Ошибка отправки запроса. " ++ msg⟩],
        .raises (.nameError unboundLocalMsg)⟩ ∧
    get_api_answer (.response status url body) =
      ⟨[⟨.error, "Произошла ошибка: Сбой при обращении к URL " ++ url⟩],
        .raises (.nameError unboundLocalMsg)⟩ :=
  ⟨rfl, by simp [get_api_answer, h]⟩

/-- Witness for C1 (amended) at a concrete transport failure and a 404. -/
theorem C1_get_api_answer_failure_witness :
    get_api_answer (.transportError "Connection reset") =
      ⟨[⟨.error, "Ошибка отправки запроса. Connection reset"⟩],
        .raises (.nameError unboundLocalMsg)⟩ ∧
    get_api_answer (.response 404 "url404" (.dict [])) =
      ⟨[⟨.error, "Произошла ошибка: Сбой при обращении к URL url404"⟩],
        .raises (.nameError unboundLocalMsg)⟩ :=
  C1_get_api_answer_failure "Connection reset" "url404" 404 (.dict []) (by decide)

/-- C5: an exception in a cycle becomes the generic failure message,
deduplicated against the cached last error: starting from a cache not holding
the first message, two consecutive failure cycles with identical text invoke
the notifier once (the first sends, the second is suppressed), and with
differing texts invoke it twice; the cache is updated on each send. -/
theorem C5_error_dedup (s : LoopState) (h1 h2 : HttpResult) (M1 M2 : String)
    (hf1 : cycleFails h1 = some M1) (hf2 : cycleFails h2 = some M2)
    (hs : s.lastError ≠ some M1) :
    ((cycle s h1).sentErr = [M1] ∧ (cycle s h1).state.lastError = some M1) ∧
    (M1 = M2 → (cycle (cycle s h1).state h2).sentErr = [] ∧
      (cycle (cycle s h1).state h2).state.lastError = some M1) ∧
    (M1 ≠ M2 → (cycle (cycle s h1).state h2).sentErr = [M2] ∧
      (cycle (cycle s h1).state h2).state.lastError = some M2) := by
  obtain ⟨hsent1, hlast1, _⟩ := cycle_fail_send hf1 hs
  refine ⟨⟨hsent1, hlast1⟩, ?_, ?_⟩
  · intro hEq
    subst hEq
    exact cycle_fail_dedup hf2 hlast1
  · intro hneq
    have hne2 : (cycle s h1).state.lastError ≠ some M2 := by
      rw [hlast1]
      exact fun hcon => hneq (Option.some.inj hcon)
    obtain ⟨ha, hb, _⟩ := cycle_fail_send hf2 hne2
    exact ⟨ha, hb⟩

/-- Witness for C5 with two distinct validation failures (an `int` body and
a `str` body). -/
theorem C5_error_dedup_witness :
    ((cycle ⟨.int 0, Option.none⟩ (.response 200 "u" (.int 5))).sentErr =
        ["Сбой в работе программы: Неправильный тип данных ответа сервера: <class 'int'>"] ∧
      (cycle ⟨.int 0, Option.none⟩ (.response 200 "u" (.int 5))).state.lastError =
        some "Сбой в работе программы: Неправильный тип данных ответа сервера: <class 'int'>") ∧
    ("Сбой в работе программы: Неправильный тип данных ответа сервера: <class 'int'>" =
        "Сбой в работе программы: Неправильный тип данных ответа сервера: <class 'list'>" →
      (cycle (cycle ⟨.int 0, Option.none⟩ (.response 200 "u" (.int 5))).state
          (.response 200 "u" (.list []))).sentErr = [] ∧
      (cycle (cycle ⟨.int 0, Option.none⟩ (.response 200 "u" (.int 5))).state
          (.response 200 "u" (.list []))).state.lastError =
        some "Сбой в работе программы: Неправильный тип данных ответа сервера: <class 'int'>") ∧
    ("Сбой в работе программы: Неправильный тип данных ответа сервера: <class 'int'>" ≠
        "Сбой в работе программы: Неправильный тип данных ответа сервера: <class 'list'>" →
      (cycle (cycle ⟨.int 0, Option.none⟩ (.response 200 "u" (.int 5))).state
          (.response 200 "u" (.list []))).sentErr =
        ["Сбой в работе программы: Неправильный тип данных ответа сервера: <class 'list'>"] ∧
      (cycle (cycle ⟨.int 0, Option.none⟩ (.response 200 "u" (.int 5))).state
          (.response 200 "u" (.list []))).state.lastError =
        some "Сбой в работе программы: Неправильный тип данных ответа сервера: <class 'list'>") :=
  C5_error_dedup ⟨.int 0, Option.none⟩ (.response 200 "u" (.int 5))
    (.response 200 "u" (.list []))
    "Сбой в работе программы: Неправильный тип данных ответа сервера: <class 'int'>"
    "Сбой в работе программы: Неправильный тип данных ответа сервера: <class 'list'>"
    (by decide) (by decide) (by simp)

/-- C6: if any of the three required environment values is absent or empty,
`check_tokens` logs a critical line naming each missing value and the process
halts (its `exit()` is reached before the loop, so no cycle — hence no
network call — ever runs); if all three are present it succeeds with only a
debug-level log. -/
theorem C6_check_tokens (p t c : Option String) :
    ((isFalsyToken p || isFalsyToken t || isFalsyToken c) = true →
      (check_tokens p t c).result = Option.none ∧
      (∀ e ∈ (check_tokens p t c).log, e.level = .critical) ∧
      (isFalsyToken p = true →
        (⟨.critical, "Отсутствует обязательная переменная PRACTICUM_TOKEN"⟩ : LogEntry)
          ∈ (check_tokens p t c).log) ∧
      (isFalsyToken t = true →
        (⟨.critical, "Отсутствует обязательная переменная TELEGRAM_TOKEN"⟩ : LogEntry)
          ∈ (check_tokens p t c).log) ∧
      (isFalsyToken c = true →
        (⟨.critical, "Отсутствует обязательная переменная TELEGRAM_CHAT_ID"⟩ : LogEntry)
          ∈ (check_tokens p t c).log) ∧
      (∀ ts0 https, main_trace p t c ts0 https = [])) ∧
    ((isFalsyToken p = false ∧ isFalsyToken t = false ∧ isFalsyToken c = false) →
      (check_tokens p t c).result = some PyValue.none ∧
      (check_tokens p t c).log = [⟨.debug, "Проверка ключей закончилась успешно"⟩]) := by
  cases hp : isFalsyToken p <;> cases ht : isFalsyToken t <;>
    cases hc : isFalsyToken c <;>
    simp [check_tokens, main_trace, main_startup, hp, ht, hc]

/-- Witness for C6: a missing first token halts with its critical line and
an empty trace; a full environment yields only the debug line. -/
theorem C6_check_tokens_witness :
    ((check_tokens Option.none (some "b") (some "c")).result = Option.none ∧
      (⟨.critical, "Отсутствует обязательная переменная PRACTICUM_TOKEN"⟩ : LogEntry)
        ∈ (check_tokens Option.none (some "b") (some "c")).log ∧
      main_trace Option.none (some "b") (some "c") 0 [] = []) ∧
    ((check_tokens (some "a") (some "b") (some "c")).result = some PyValue.none ∧
      (check_tokens (some "a") (some "b") (some "c")).log =
        [⟨.debug, "Проверка ключей закончилась успешно"⟩]) := by
  refine ⟨?_, (C6_check_tokens (some "a") (some "b") (some "c")).2 (by decide)⟩
  have h := (C6_check_tokens Option.none (some "b") (some "c")).1 (by decide)
  exact ⟨h.1, h.2.2.1 (by decide), h.2.2.2.2.2 0 []⟩

/-- C9: `check_tokens` returns `None` in every case in which it returns at
all, so `main`'s `if not check_tokens():` branch cannot distinguish success
from failure: even with all three values present the branch is taken and its
critical line is logged before the loop is entered; only termination inside
`check_tokens` enforces the requirement. -/
theorem C9_check_tokens_return (p t c : Option String) :
    (∀ v, (check_tokens p t c).result = some v → v = PyValue.none) ∧
    ((isFalsyToken p = false ∧ isFalsyToken t = false ∧ isFalsyToken c = false) →
      main_startup p t c =
        .enterLoop [⟨.debug, "Проверка ключей закончилась успешно"⟩,
          ⟨.critical, "Отсутствуют обязательные переменные"⟩]) := by
  cases hp : isFalsyToken p <;> cases ht : isFalsyToken t <;>
    cases hc : isFalsyToken c <;>
    simp [check_tokens, main_startup, hp, ht, hc, PyValue.truthy]

/-- Witness for C9 with a fully populated environment. -/
theorem C9_check_tokens_return_witness :
    PyValue.none = PyValue.none ∧
    main_startup (some "a") (some "b") (some "c") =
      .enterLoop [⟨.debug, "Проверка ключей закончилась успешно"⟩,
        ⟨.critical, "Отсутствуют обязательные переменные"⟩] :=
  ⟨(C9_check_tokens_return (some "a") (some "b") (some "c")).1 PyValue.none rfl,
    (C9_check_tokens_return (some "a") (some "b") (some "c")).2 (by decide)⟩

/-- C10: the last-error cache changes only in a cycle that actually sends an
error message, and a successful cycle never clears it; hence once message `M`
is cached, a later failure cycle producing exactly `M` sends no failure
notification and leaves the cache at `M`, even after any number of successful
cycles in between. -/
theorem C10_last_error_cache :
    (∀ (s : LoopState) (h : HttpResult), (cycle s h).sentErr = [] →
      (cycle s h).state.lastError = s.lastError) ∧
    (∀ (M : String) (s : LoopState) (https : List HttpResult) (h2 : HttpResult),
      s.lastError = some M → (∀ h ∈ https, cycleFails h = Option.none) →
      cycleFails h2 = some M →
      (runCycles s https).1.lastError = some M ∧
      (cycle (runCycles s https).1 h2).sentErr = [] ∧
      (cycle (runCycles s https).1 h2).state.lastError = some M) := by
  constructor
  · intro s h hsent
    cases hct : cycle_try h with
    | ok ts sent => simp [cycle, hct]
    | failed e sent =>
      by_cases hcond :
          s.lastError = some ("Сбой в работе программы: " ++ PyError.toStr e)
      · simp [cycle, hct, hcond]
      · simp [cycle, hct, hcond] at hsent
  · intro M s https h2 hM hok hf2
    have hrun : (runCycles s https).1.lastError = some M := by
      rw [runCycles_lastError_of_ok https s hok, hM]
    have hd := cycle_fail_dedup hf2 hrun
    exact ⟨hrun, hd.1, hd.2⟩

/-- Witness for C10: a successful scenario-A cycle between two occurrences of
the same failure text does not clear the cache, so the later failure sends
nothing. -/
theorem C10_last_error_cache_witness :
    ((cycle ⟨.int 0, Option.none⟩ (.response 200 "u" scenarioA_body)).state.lastError =
      (⟨PyValue.int 0, Option.none⟩ : LoopState).lastError) ∧
    ((runCycles
        ⟨.int 0, some "Сбой в работе программы: Неправильный тип данных ответа сервера: <class 'int'>"⟩
        [.response 200 "u" scenarioA_body]).1.lastError =
      some "Сбой в работе программы: Неправильный тип данных ответа сервера: <class 'int'>" ∧
      (cycle (runCycles
          ⟨.int 0, some "Сбой в работе программы: Неправильный тип данных ответа сервера: <class 'int'>"⟩
          [.response 200 "u" scenarioA_body]).1
        (.response 200 "u" (.int 5))).sentErr = [] ∧
      (cycle (runCycles
          ⟨.int 0, some "Сбой в работе программы: Неправильный тип данных ответа сервера: <class 'int'>"⟩
          [.response 200 "u" scenarioA_body]).1
        (.response 200 "u" (.int 5))).state.lastError =
        some "Сбой в работе программы: Неправильный тип данных ответа сервера: <class 'int'>") :=
  ⟨C10_last_error_cache.1 ⟨.int 0, Option.none⟩ (.response 200 "u" scenarioA_body) rfl,
    C10_last_error_cache.2
      "Сбой в работе программы: Неправильный тип данных ответа сервера: <class 'int'>"
      ⟨.int 0, some "Сбой в работе программы: Неправильный тип данных ответа сервера: <class 'int'>"⟩
      [.response 200 "u" scenarioA_body] (.response 200 "u" (.int 5)) rfl
      (by intro x hx; rw [List.mem_singleton] at hx; subst hx; rfl) rfl⟩

end HomeworkBot
